import Mathlib

/-!
Verification of the categorical meta-prompting engine.

This file gives a shallow embedding of the repository's categorical core:

* `meta_prompting_engine/categorical/quality.py` — quality assessment
  (`assess_quality` and its four sub-assessors), keyword extraction,
  `extract_improvement` and `integrate_improvement`;
* `meta_prompting_engine/categorical/monad.py` — `MonadPrompt`, the monad
  operations `unit` / `join` / `bind` built by
  `create_recursive_meta_monad`, the structural-equality predicate
  `_monadic_prompts_equal`, and the law-verification procedures;
* `tests/test_comonad_laws.py` — the `ContextStore` comonad and its
  `extract` operation;
* parts of the data model whose defining module (`types.py`,
  `comonad.py`, `functor.py`, `strategy.py`) is not in the shown source
  tree; those definitions are modelled from the specification and are
  marked as such in their doc comments.

Modelling conventions:

* Python floats are modelled as exact rationals (`ℚ`); all the constants
  appearing in the code are short decimals, written here as fractions
  (`0.80 = 4/5`, and so on).
* Python strings are modelled as `String`; the text-processing helpers
  work on the underlying character list (`Str := List Char`), with
  structural recursion so that every definition evaluates inside the
  kernel.  Python's `str.lower` / regex `\w` are Unicode-aware; the
  embedding uses the ASCII reading, which is exact on every string the
  repository manipulates.
* Python dictionaries holding heterogeneous values (`context`,
  `metadata`, improvement dictionaries) are modelled as association
  lists over a tagged value type `CtxVal`; a dict update `{**d, k: v}`
  is modelled by prepending, and lookup takes the first match, which
  matches Python's later-write-wins semantics.
* Fallible code is modelled with `Except String`: the only failure path
  reached by the embedded code is the `TypeError` Python would raise in
  `extract_improvement` when a recorded `context['quality']` value is
  not a number, plus the explicit `ValueError` raised by
  `ContextStore.extract`.
* The SHA-256 digest used by `Monad._hash_prompt` is modelled by the
  string that the code hashes (`f"{template}_{meta_level}"` itself);
  digest equality coincides with equality of the hashed strings up to
  hash collisions, which is exactly how the code uses it.
* Timestamps (`datetime.now()`) are ignored: no compared field and no
  claim depends on them, and `_monadic_prompts_equal` never reads them.
-/

namespace MPE

/-- Character list underlying a Python string. -/
abbrev Str := List Char

/-- ASCII lower-casing of one character (Python `str.lower`, ASCII part). -/
def lowerChar (c : Char) : Char :=
  if 'A' ≤ c ∧ c ≤ 'Z' then Char.ofNat (c.toNat + 32) else c

/-- Python `str.lower`. -/
def lowerStr (s : Str) : Str := s.map lowerChar

/-- Python `str.strip`: drop leading and trailing whitespace. -/
def trimStr (s : Str) : Str :=
  ((s.dropWhile Char.isWhitespace).reverse.dropWhile Char.isWhitespace).reverse

/-- Python `needle in hay` substring test. -/
def containsStr : Str → Str → Bool
  | [], needle => needle.isEmpty
  | c :: rest, needle => needle.isPrefixOf (c :: rest) || containsStr rest needle

/-- Auxiliary state machine for `countOccur`: the `Nat` argument is the
number of characters still to be skipped after a match, giving Python's
non-overlapping occurrence count by structural recursion. -/
def countOccurAux (needle : Str) : Str → Nat → Nat
  | [], _ => 0
  | c :: rest, 0 =>
    if needle.isPrefixOf (c :: rest) then
      countOccurAux needle rest (needle.length - 1) + 1
    else
      countOccurAux needle rest 0
  | _ :: rest, k + 1 => countOccurAux needle rest k

/-- Python `hay.count(needle)` for a non-empty needle (the code only
counts the two-character needle `"\n\n"`). -/
def countOccur (needle hay : Str) : Nat := countOccurAux needle hay 0

/-- Split at every character satisfying `p`, keeping empty pieces, like
Python `str.split(sep)` for a one-character separator. -/
def splitByAux (p : Char → Bool) : Str → Str → List Str
  | [], acc => [acc.reverse]
  | c :: rest, acc =>
    if p c then acc.reverse :: splitByAux p rest []
    else splitByAux p rest (c :: acc)

/-- Split a string at every character satisfying `p`. -/
def splitByChar (p : Char → Bool) (s : Str) : List Str := splitByAux p s []

/-- Python `str.split()` with no argument: whitespace-delimited words,
empty pieces dropped. -/
def wordsOf (s : Str) : List Str :=
  (splitByChar Char.isWhitespace s).filter (fun w => !w.isEmpty)

/-- A regex `\w` word character (ASCII reading). -/
def isWordChar (c : Char) : Bool := c.isAlphanum || c == '_'

/-- Auxiliary state machine for `replaceAll`, analogous to
`countOccurAux`: on a match the replacement is emitted and the matched
characters are skipped. -/
def replaceAllAux (needle repl : Str) : Str → Nat → Str
  | [], _ => []
  | c :: rest, 0 =>
    if needle.isPrefixOf (c :: rest) then
      repl ++ replaceAllAux needle repl rest (needle.length - 1)
    else
      c :: replaceAllAux needle repl rest 0
  | _ :: rest, k + 1 => replaceAllAux needle repl rest k

/-- Python `hay.replace(needle, repl)` for a non-empty needle. -/
def replaceAll (hay needle repl : Str) : Str :=
  if needle.isEmpty then hay else replaceAllAux needle repl hay 0

/-- Decimal digits of a natural number, as characters. -/
def natToStr (n : Nat) : Str := Nat.toDigits 10 n

/-- Tagged value stored in a `context` / `metadata` dictionary or in an
improvement dictionary (`monad.py` and `quality.py` only ever store
numbers, booleans and strings there). -/
inductive CtxVal where
  | num : ℚ → CtxVal
  | bool : Bool → CtxVal
  | str : String → CtxVal
deriving DecidableEq

/-- Python `d.get(key)` on an association-list dictionary: first match
wins, matching later-write-wins updates that prepend. -/
def ctxLookup (ctx : List (String × CtxVal)) (key : String) : Option CtxVal :=
  (ctx.find? (fun kv => kv.1 == key)).map (fun kv => kv.2)

/-- Numeric reading of a stored value for Python's `<=` comparison:
numbers compare as themselves, booleans as 0/1 (Python `bool` is an
`int`), and any other value raises a `TypeError`. -/
def ctxValAsNum : CtxVal → Except String ℚ
  | .num q => .ok q
  | .bool b => .ok (if b then 1 else 0)
  | .str _ => .error "TypeError: unsupported comparison"

/-- The `Prompt` value type. Modelled from the spec: `types.py` is not in
the shown source tree; the spec gives
`{template, variables, context, meta_level}` with `render()` substituting
variables into the template, undefined placeholders left literal. -/
structure Prompt where
  template : String
  /-- The source field is named `variables`; Lean 4 reserves that word,
  so the embedding calls it `vars`. -/
  vars : List (String × String) := []
  context : List (String × CtxVal) := []
  meta_level : Nat := 0
deriving DecidableEq

/-- Modelled from the spec: `Prompt.render()` (defined in the absent
`types.py`) substitutes each variable `k ↦ v` for the placeholder
`"{k}"` in the template. -/
def render (p : Prompt) : String :=
  String.mk (p.vars.foldl
    (fun t kv => replaceAll t ('\x7b' :: kv.1.data ++ ['\x7d']) kv.2.data)
    p.template.data)

/-- The `QualityScore` value type. Modelled from the spec: `types.py` is
not in the shown source tree; the spec gives `{value : float in [0,1],
components : mapping string→float}`. -/
structure QualityScore where
  value : ℚ
  components : List (String × ℚ) := []
deriving DecidableEq

/-- Modelled from the spec: `QualityScore.tensor_product` (defined in the
absent `types.py`) combines two scores by taking the minimum of their
values — "a chain is only as strong as its weakest link"; the spec fixes
only the combined `value`, so the combined component map is left empty. -/
def QualityScore.tensor_product (q1 q2 : QualityScore) : QualityScore :=
  { value := min q1.value q2.value, components := [] }

/-- The `MonadPrompt` wrapper from `monad.py` (timestamp omitted, see the
file header). -/
structure MonadPrompt where
  prompt : Prompt
  quality : QualityScore
  meta_level : Nat := 0
  history : List Prompt := []
deriving DecidableEq

/-- Stop words filtered out by `extract_keywords` in `quality.py`. -/
def stop_words : List Str :=
  ["the", "a", "an", "and", "or", "but", "in", "on", "at", "to",
   "for", "is", "are", "was", "were"].map String.data

/-- Embedding of `extract_keywords` from `quality.py`: the maximal runs
of word characters of the lower-cased text (`re.findall(r"\b\w+\b", ...)`),
with stop words and short words removed, de-duplicated.  Python returns
`list(set(...))` in unspecified order; callers only use the result's set
semantics (membership count and length), which `List.dedup` preserves. -/
def extract_keywords (text : String) : List Str :=
  let ws := (splitByChar (fun c => !isWordChar c) (lowerStr text.data)).filter
    (fun w => !w.isEmpty)
  (ws.filter (fun w => !(stop_words.contains w) && 3 < w.length)).dedup

/-- Error keywords checked by `_assess_correctness`. -/
def error_keywords : List Str :=
  ["error", "cannot", "unable", "impossible", "unclear"].map String.data

/-- Embedding of `_assess_correctness` from `quality.py` (the `prompt`
argument is accepted and unused, exactly as in the source). -/
def assess_correctness (output : String) (_prompt : Prompt) : ℚ :=
  let o := output.data
  let score : ℚ := 1/2
  let score := if 10 < (trimStr o).length then score + 1/5 else score
  let score := if 50 < o.length then score + 1/10 else score
  let score := if o.length < 2000 then score + 1/10 else score
  let score :=
    if !(error_keywords.any (fun kw => containsStr (lowerStr o) kw)) then
      score + 1/10
    else score
  min score 1

/-- Bullet markers checked by `_assess_clarity`. -/
def bullet_markers : List Str := ["- ", "* ", "1.", "2."].map String.data

/-- Explanatory words checked by `_assess_clarity`. -/
def explanatory_words : List Str :=
  ["because", "therefore", "thus", "since", "so"].map String.data

/-- Embedding of `_assess_clarity` from `quality.py`. -/
def assess_clarity (output : String) : ℚ :=
  let o := output.data
  let score : ℚ := 1/2
  let score := if 1 ≤ countOccur ['\n', '\n'] o then score + 3/20 else score
  let score :=
    if bullet_markers.any (fun m => containsStr o m) then score + 3/20
    else score
  let sentences := splitByChar (fun c => c == '.') o
  let avg : ℚ :=
    ((sentences.map (fun s => ((wordsOf s).length : ℚ))).sum) /
      ((max sentences.length 1 : ℕ) : ℚ)
  let score := if 10 ≤ avg ∧ avg ≤ 30 then score + 1/10 else score
  let score :=
    if explanatory_words.any (fun w => containsStr (lowerStr o) w) then
      score + 1/10
    else score
  min score 1

/-- Edge-case markers checked by `_assess_completeness`. -/
def edge_case_terms : List Str :=
  ["edge case", "corner case", "special case"].map String.data

/-- Embedding of `_assess_completeness` from `quality.py`. -/
def assess_completeness (output : String) (prompt : Prompt) : ℚ :=
  let o := output.data
  let score : ℚ := 3/5
  let prompt_keywords := extract_keywords (render prompt)
  let output_lower := lowerStr o
  let keyword_coverage : ℚ :=
    ((prompt_keywords.countP (fun kw => containsStr output_lower kw) : ℚ)) /
      ((max prompt_keywords.length 1 : ℕ) : ℚ)
  let score := score + 1/5 * keyword_coverage
  let score :=
    if containsStr output_lower "example".data ||
        containsStr output_lower "e.g.".data then
      score + 1/10
    else score
  let score :=
    if edge_case_terms.any (fun t => containsStr output_lower t) then
      score + 1/10
    else score
  min score 1

/-- Complexity terms checked by `_assess_efficiency`. -/
def complexity_terms : List Str :=
  ["o(n)", "o(log n)", "complexity", "efficient"].map String.data

/-- Optimization terms checked by `_assess_efficiency`. -/
def optimization_terms : List Str :=
  ["optimize", "improve", "faster", "better"].map String.data

/-- Inefficiency red flags checked by `_assess_efficiency`. -/
def inefficient_keywords : List Str :=
  ["nested loop", "o(n^3)", "brute force", "exponential"].map String.data

/-- Embedding of `_assess_efficiency` from `quality.py`. -/
def assess_efficiency (output : String) : ℚ :=
  let o := lowerStr output.data
  let score : ℚ := 7/10
  let score :=
    if complexity_terms.any (fun t => containsStr o t) then score + 3/20
    else score
  let score :=
    if optimization_terms.any (fun t => containsStr o t) then score + 1/10
    else score
  let score :=
    if !(inefficient_keywords.any (fun kw => containsStr o kw)) then
      score + 1/20
    else score
  min score 1

/-- The fixed weight dictionary of `assess_quality`. -/
def weightOf (k : String) : ℚ :=
  if k = "correctness" then 2/5
  else if k = "clarity" then 3/10
  else if k = "completeness" then 1/5
  else if k = "efficiency" then 1/10
  else 0

/-- Embedding of `assess_quality` from `quality.py`: the four sub-scores
in insertion order, combined by the weighted sum
`sum(components[k] * weights[k] for k in components)`. -/
def assess_quality (output : String) (prompt : Prompt) : QualityScore :=
  let components :=
    [("correctness", assess_correctness output prompt),
     ("clarity", assess_clarity output),
     ("completeness", assess_completeness output prompt),
     ("efficiency", assess_efficiency output)]
  let overall := (components.map (fun kv => kv.2 * weightOf kv.1)).sum
  { value := overall, components := components }

/-- The improvement dictionary built by `extract_improvement`: the three
boolean flags and the (repeatedly overwritten) `strategy` key. Keys that
were never written are `false` / `none`, matching an absent dict key. -/
structure Improvement where
  needs_clarity : Bool := false
  add_meta_reflection : Bool := false
  quality_stagnant : Bool := false
  strategy : Option String := none
deriving DecidableEq

/-- Embedding of `extract_improvement` from `quality.py`: three rules run
in order, each later rule overwriting the `strategy` key.  The history
rule compares the current quality against
`history[-1].context.get('quality', 0.5)`; a non-numeric stored value is
the `TypeError` Python would raise at that comparison. -/
def extract_improvement (monad_prompt : MonadPrompt) : Except String Improvement :=
  let i0 : Improvement := {}
  let i1 :=
    if monad_prompt.quality.value < 4/5 then
      { i0 with needs_clarity := true, strategy := some "add_structure" }
    else i0
  let i2 :=
    if monad_prompt.meta_level = 0 then
      { i1 with add_meta_reflection := true,
                strategy := some "add_reasoning_steps" }
    else i1
  match monad_prompt.history.getLast? with
  | none => .ok i2
  | some prev =>
    match ctxValAsNum ((ctxLookup prev.context "quality").getD (.num (1/2))) with
    | .error e => .error e
    | .ok prev_quality =>
      .ok (if monad_prompt.quality.value ≤ prev_quality then
            { i2 with quality_stagnant := true,
                      strategy := some "try_different_approach" }
          else i2)

/-- The `add_structure` template wrapper of `integrate_improvement`. -/
def structure_scaffold (t : String) : String :=
  "Let\x27s approach this systematically:\n\n" ++ t ++
  "\n\nProvide your solution with clear structure:\n1. Analysis\n2. Approach\n3. Solution\n4. Verification"

/-- The `add_reasoning_steps` template wrapper of `integrate_improvement`. -/
def reasoning_scaffold (t : String) : String :=
  "Think step-by-step about this problem:\n\n" ++ t ++
  "\n\nShow your reasoning process:\n- What is the core problem?\n- What approach will you use?\n- Why is this approach optimal?\n- What is the final solution?"

/-- The `try_different_approach` template wrapper of
`integrate_improvement`. -/
def alternative_scaffold (t : String) : String :=
  "Consider alternative approaches to this problem:\n\n" ++ t ++
  "\n\nExplore multiple solution strategies:\n1. Approach A: [describe]\n2. Approach B: [describe]\n3. Best approach: [select and justify]\n4. Final solution: [implement]"

/-- Embedding of `integrate_improvement` from `quality.py`: wraps the
template according to `improvement.get('strategy', '')`, always returns a
new `Prompt` with `meta_level` incremented and context extended with
`improved` and `improvement_strategy`. -/
def integrate_improvement (prompt : Prompt) (improvement : Improvement) : Prompt :=
  let strategy := improvement.strategy.getD ""
  let enhanced_template :=
    if strategy = "add_structure" then structure_scaffold prompt.template
    else if strategy = "add_reasoning_steps" then reasoning_scaffold prompt.template
    else if strategy = "try_different_approach" then alternative_scaffold prompt.template
    else prompt.template
  { template := enhanced_template,
    vars := prompt.vars,
    context := ("improved", .bool true) ::
               ("improvement_strategy", .str strategy) :: prompt.context,
    meta_level := prompt.meta_level + 1 }

/-- Embedding of the `unit` closure of `create_recursive_meta_monad` in
`monad.py`: execute the rendered prompt through the completion
collaborator, assess quality, wrap at `meta_level = 0` with empty
history.  The collaborator is the explicit `complete` argument. -/
def unit (complete : String → String) (prompt : Prompt) : MonadPrompt :=
  let output := complete (render prompt)
  let quality := assess_quality output prompt
  { prompt := prompt, quality := quality, meta_level := 0, history := [] }

/-- Embedding of the `join` closure of `create_recursive_meta_monad` in
`monad.py`: extract an improvement, integrate it into the base prompt,
re-execute, re-assess, and return at `nested.meta_level` with
`nested.history` carried through unchanged. -/
def join (complete : String → String) (nested : MonadPrompt) : Except String MonadPrompt :=
  match extract_improvement nested with
  | .error e => .error e
  | .ok improvement =>
    let enhanced_prompt := integrate_improvement nested.prompt improvement
    let new_output := complete (render enhanced_prompt)
    let new_quality := assess_quality new_output enhanced_prompt
    .ok { prompt := enhanced_prompt, quality := new_quality,
          meta_level := nested.meta_level, history := nested.history }

/-- The intermediate nested value constructed inside `Monad.bind`
(`monad.py` lines 146–153): `mb.prompt` with the tensor-product quality,
incremented depth, and `ma.prompt` appended to the history. -/
def bind_nested (ma mb : MonadPrompt) : MonadPrompt :=
  { prompt := mb.prompt,
    quality := ma.quality.tensor_product mb.quality,
    meta_level := ma.meta_level + 1,
    history := ma.history ++ [ma.prompt] }

/-- Embedding of `Monad.bind` from `monad.py`: apply `f` to `ma.prompt`,
build the nested intermediate, and flatten it through `join`. -/
def bind (complete : String → String) (ma : MonadPrompt)
    (f : Prompt → MonadPrompt) : Except String MonadPrompt :=
  join complete (bind_nested ma (f ma.prompt))

/-- Embedding of `Monad._hash_prompt`: the SHA-256 digest of
`f"{template}_{meta_level}"`, modelled by the hashed string itself
(digest equality is string equality up to hash collisions). -/
def hash_prompt (p : Prompt) : String :=
  p.template ++ "_" ++ String.mk (natToStr p.meta_level)

/-- Embedding of `Monad._monadic_prompts_equal`: equal prompt hashes,
quality values within `0.01`, equal meta-levels. -/
def monadic_prompts_equal (mp1 mp2 : MonadPrompt) : Bool :=
  (hash_prompt mp1.prompt == hash_prompt mp2.prompt) &&
  (decide (|mp1.quality.value - mp2.quality.value| < 1/100)) &&
  (mp1.meta_level == mp2.meta_level)

/-- Embedding of `Monad.verify_left_identity`: compare
`bind(unit(a), f)` with `f(a)` under structural equality. -/
def verify_left_identity (complete : String → String) (a : Prompt)
    (f : Prompt → MonadPrompt) : Except String Bool :=
  (bind complete (unit complete a) f).map
    (fun left_side => monadic_prompts_equal left_side (f a))

/-- Embedding of `Monad.verify_right_identity`: compare
`bind(ma, unit)` with `ma` under structural equality. -/
def verify_right_identity (complete : String → String)
    (ma : MonadPrompt) : Except String Bool :=
  (bind complete ma (unit complete)).map
    (fun left_side => monadic_prompts_equal left_side ma)

/-- The closed strategy enumeration.  Modelled from the spec:
`strategy.py` is not in the shown source tree; the three names are fixed
by the spec and by `test_functor.py`. -/
inductive Strategy where
  | directExecution
  | multiApproachSynthesis
  | autonomousEvolution
deriving DecidableEq

/-- Display name of a strategy, as compared by `test_functor.py`. -/
def Strategy.name : Strategy → String
  | .directExecution => "Direct Execution"
  | .multiApproachSynthesis => "Multi-Approach Synthesis"
  | .autonomousEvolution => "Autonomous Evolution"

/-- Modelled from the spec: `select_strategy` (defined in the absent
`strategy.py`) is the deterministic three-way threshold on the overall
complexity — `<0.3` Direct Execution, `[0.3,0.7)` Multi-Approach
Synthesis, `≥0.7` Autonomous Evolution. -/
def select_strategy (overall : ℚ) : Strategy :=
  if overall < 3/10 then .directExecution
  else if overall < 7/10 then .multiApproachSynthesis
  else .autonomousEvolution

/-- The `Task` value type.  Modelled from the spec: `types.py` is not in
the shown source tree. -/
structure Task where
  description : String
  constraints : List String := []
  examples : List String := []

/-- Modelled from the spec: the Functor's `map_object` (defined in the
absent `functor.py`) computes a complexity for the task — here an
arbitrary analyzer collaborator `analyze` — selects the strategy from it,
and emits an initial prompt whose context records the task, the
complexity and the selected strategy. -/
def map_object (analyze : Task → ℚ) (t : Task) : Prompt :=
  let overall := analyze t
  let strat := select_strategy overall
  { template := t.description,
    vars := [],
    context := [("task", .str t.description),
                ("complexity", .num overall),
                ("strategy", .str strat.name)],
    meta_level := 0 }

mutual
/-- The content of an `Observation`: a plain value or — after
`duplicate` — a nested observation.  Modelled from the spec (`comonad.py`
is not in the shown source tree): `current` is a tagged union over plain
values and observations. -/
inductive ObsVal where
  | str : String → ObsVal
  | num : ℚ → ObsVal
  | obs : Observation → ObsVal

/-- The `Observation` comonad value.  Modelled from the spec
(`comonad.py` is not in the shown source tree):
`{current, context, history, metadata, timestamp}`. -/
inductive Observation where
  | mk : (current : ObsVal) → (context : List (String × CtxVal)) →
      (history : List Observation) → (metadata : List (String × CtxVal)) →
      (timestamp : ℚ) → Observation
end

/-- The `current` field of an observation. -/
def Observation.current : Observation → ObsVal
  | .mk c _ _ _ _ => c

/-- The `context` field of an observation. -/
def Observation.context : Observation → List (String × CtxVal)
  | .mk _ ctx _ _ _ => ctx

/-- The `history` field of an observation. -/
def Observation.history : Observation → List Observation
  | .mk _ _ h _ _ => h

/-- The `metadata` field of an observation. -/
def Observation.metadata : Observation → List (String × CtxVal)
  | .mk _ _ _ m _ => m

/-- The `timestamp` field of an observation. -/
def Observation.timestamp : Observation → ℚ
  | .mk _ _ _ _ t => t

/-- Modelled from the spec: the Comonad's `extract` (defined in the
absent `comonad.py`) returns the `current` field, with no side effects. -/
def Observation.extract (w : Observation) : ObsVal := w.current

/-- Modelled from the spec: the heuristic `observation_quality` marker
computed by `duplicate` from the shape of the context; the spec fixes
only that it lies in `[0,1]`. -/
def observation_quality (w : Observation) : ℚ :=
  min 1 ((w.context.length : ℚ) / 10)

/-- Modelled from the spec: the heuristic `completeness` marker computed
by `duplicate` from the shape of the context and history; the spec fixes
only that it lies in `[0,1]`. -/
def observation_completeness (w : Observation) : ℚ :=
  min 1 (((w.context.length : ℚ) + (w.history.length : ℚ)) / 10)

/-- Comma-joined key list of a context, for the `original_context_keys`
marker. -/
def joined_keys (ctx : List (String × CtxVal)) : String :=
  String.intercalate "," (ctx.map (fun kv => kv.1))

/-- Modelled from the spec: the Comonad's `duplicate` (defined in the
absent `comonad.py`) wraps the whole original observation as `current`,
prepends it to the history, and extends context and metadata with the
meta-observation markers (`meta_observation`, `original_context_keys`,
`observation_timestamp`, `history_depth`, `observation_quality`,
`completeness`).  The original observation is shared, never modified. -/
def duplicate (w : Observation) : Observation :=
  .mk (.obs w)
    (("meta_observation", .bool true) ::
     ("original_context_keys", .str (joined_keys w.context)) ::
     ("observation_timestamp", .num w.timestamp) ::
     ("history_depth", .num (w.history.length : ℚ)) :: w.context)
    (w :: w.history)
    (("observation_quality", .num (observation_quality w)) ::
     ("completeness", .num (observation_completeness w)) :: w.metadata)
    w.timestamp

/-- A single entry of the `ContextStore` comonad, from
`tests/test_comonad_laws.py` (the `metadata` dict, unread by every
operation, is omitted). -/
structure ContextEntry (α : Type) where
  content : α
  timestamp : ℚ := 0
  focus_weight : ℚ := 1

/-- The `ContextStore` comonad value from `tests/test_comonad_laws.py`:
an ordered list of entries with a focus index. -/
structure ContextStore (α : Type) where
  entries : List (ContextEntry α)
  focus_index : Nat := 0

/-- Embedding of `ContextStore.extract` from `tests/test_comonad_laws.py`:
raises `ValueError("Cannot extract from empty context")` on an empty
store, otherwise returns the focused entry's content (an out-of-range
focus index is Python's `IndexError`). -/
def ContextStore.extract {α : Type} (cs : ContextStore α) : Except String α :=
  if cs.entries.isEmpty then .error "Cannot extract from empty context"
  else
    match cs.entries.get? cs.focus_index with
    | some e => .ok e.content
    | none => .error "IndexError: list index out of range"

/-- A deterministic completion collaborator used for the concrete
evaluations below (the external `llm_client.complete`). -/
def mock_client : String → String := fun _ => "ok"

/-- A concrete base prompt. -/
def p0 : Prompt := { template := "Solve it" }

/-- A concrete wrapped prompt, built by `unit` exactly as the repository's
right-identity test does. -/
def ma0 : MonadPrompt := unit mock_client p0

/-- The monadic test function of `test_monad.py`: wrap an enhanced copy
of the prompt with `unit`. -/
def enhance (p : Prompt) : MonadPrompt :=
  unit mock_client
    { template := "Enhanced: " ++ p.template,
      vars := p.vars,
      context := ("enhanced", .bool true) :: p.context,
      meta_level := p.meta_level }

/-- A history prompt whose context records a high previous quality. -/
def stagnant_prompt : Prompt :=
  { template := "Recall", context := [("quality", .num (9/10))] }

/-- A wrapped prompt with low quality, depth 0, and a stagnating
history entry. -/
def mp_stagnant : MonadPrompt :=
  { prompt := p0, quality := { value := 1/2 }, meta_level := 0,
    history := [stagnant_prompt] }

/-- A one-entry context store focused at index 0. -/
def cs0 : ContextStore ℚ := { entries := [{ content := 7 }] }

/-- An empty context store. -/
def cs_empty : ContextStore ℚ := { entries := [] }

/-- A wrapped prompt with low quality, depth 0, and empty history. -/
def mp_plain : MonadPrompt :=
  { prompt := p0, quality := { value := 1/2 }, meta_level := 0, history := [] }

lemma correctness_bounds (o : String) (p : Prompt) :
    1/2 ≤ assess_correctness o p ∧ assess_correctness o p ≤ 1 := by
  unfold assess_correctness
  refine ⟨le_min ?_ (by norm_num), min_le_right _ _⟩
  dsimp only
  split_ifs <;> norm_num

lemma clarity_bounds (o : String) :
    1/2 ≤ assess_clarity o ∧ assess_clarity o ≤ 1 := by
  unfold assess_clarity
  refine ⟨le_min ?_ (by norm_num), min_le_right _ _⟩
  dsimp only
  split_ifs <;> norm_num

lemma coverage_nonneg (kws : List Str) (out : Str) :
    (0:ℚ) ≤ ((kws.countP (fun kw => containsStr out kw) : ℚ)) /
      ((max kws.length 1 : ℕ) : ℚ) := by
  positivity

lemma coverage_le_one (kws : List Str) (out : Str) :
    ((kws.countP (fun kw => containsStr out kw) : ℚ)) /
      ((max kws.length 1 : ℕ) : ℚ) ≤ 1 := by
  rw [div_le_one (by positivity)]
  exact_mod_cast Nat.le_max_left _ _ |>.trans (le_refl _) |>.trans' (List.countP_le_length _)

lemma completeness_bounds (o : String) (p : Prompt) :
    3/5 ≤ assess_completeness o p ∧ assess_completeness o p ≤ 1 := by
  unfold assess_completeness
  refine ⟨le_min ?_ (by norm_num), min_le_right _ _⟩
  dsimp only
  have h0 := coverage_nonneg (extract_keywords (render p)) (lowerStr o.data)
  split_ifs <;> linarith

lemma efficiency_bounds (o : String) :
    7/10 ≤ assess_efficiency o ∧ assess_efficiency o ≤ 1 := by
  unfold assess_efficiency
  refine ⟨le_min ?_ (by norm_num), min_le_right _ _⟩
  dsimp only
  split_ifs <;> norm_num

lemma assess_quality_value (o : String) (p : Prompt) :
    (assess_quality o p).value =
      2/5 * assess_correctness o p + 3/10 * assess_clarity o +
      1/5 * assess_completeness o p + 1/10 * assess_efficiency o := by
  unfold assess_quality
  dsimp only
  simp only [List.map_cons, List.map_nil, List.sum_cons, List.sum_nil]
  have h1 : weightOf "correctness" = 2/5 := rfl
  have h2 : weightOf "clarity" = 3/10 := rfl
  have h3 : weightOf "completeness" = 1/5 := rfl
  have h4 : weightOf "efficiency" = 1/10 := rfl
  rw [h1, h2, h3, h4]
  ring

/-- C3: the quality tensor product is the minimum of the two values —
`tensor_product(q1, q2).value = min(q1.value, q2.value)` for every pair
of quality scores (in particular for values in `[0,1]`) — and
consequently the quality of the intermediate value built inside `bind`
equals that minimum and never exceeds either input quality. -/
theorem tensor_product_is_min :
    (∀ q1 q2 : QualityScore,
      (q1.tensor_product q2).value = min q1.value q2.value) ∧
    (∀ ma mb : MonadPrompt,
      (bind_nested ma mb).quality.value = min ma.quality.value mb.quality.value ∧
      (bind_nested ma mb).quality.value ≤ ma.quality.value ∧
      (bind_nested ma mb).quality.value ≤ mb.quality.value) := by
  refine ⟨fun q1 q2 => rfl, fun ma mb => ⟨rfl, ?_, ?_⟩⟩
  · exact min_le_left _ _
  · exact min_le_right _ _

/-- C4: whenever `bind(ma, f)` returns a value, that value has
`meta_level = ma.meta_level + 1` and `history = ma.history ++ [ma.prompt]`;
and whenever `join(nested)` returns a value, that value keeps
`nested.meta_level` (no second increment) and carries `nested.history`
through unchanged.  Stated through `Except.map` so that the error path
(which returns no value at all) is covered without extra hypotheses. -/
theorem bind_depth_and_history :
    ∀ (complete : String → String) (ma : MonadPrompt) (f : Prompt → MonadPrompt),
      (bind complete ma f).map (fun r => r.meta_level) =
        (bind complete ma f).map (fun _ => ma.meta_level + 1) ∧
      (bind complete ma f).map (fun r => r.history) =
        (bind complete ma f).map (fun _ => ma.history ++ [ma.prompt]) ∧
      ∀ nested : MonadPrompt,
        (join complete nested).map (fun r => r.meta_level) =
          (join complete nested).map (fun _ => nested.meta_level) ∧
        (join complete nested).map (fun r => r.history) =
          (join complete nested).map (fun _ => nested.history) := by
  intro complete ma f
  have hjoin : ∀ nested : MonadPrompt,
      (join complete nested).map (fun r => r.meta_level) =
        (join complete nested).map (fun _ => nested.meta_level) ∧
      (join complete nested).map (fun r => r.history) =
        (join complete nested).map (fun _ => nested.history) := by
    intro nested
    unfold join
    cases extract_improvement nested <;> simp [Except.map]
  have hb := hjoin (bind_nested ma (f ma.prompt))
  refine ⟨?_, ?_, hjoin⟩
  · simpa [bind, bind_nested] using hb.1
  · simpa [bind, bind_nested] using hb.2

/-- C7: the strategy recorded in the Functor-produced prompt's context is
exactly the one selected from the overall complexity by the three-way
threshold, inclusive on the low end of each band: `<0.3` Direct
Execution, `[0.3, 0.7)` Multi-Approach Synthesis, `≥0.7` Autonomous
Evolution. -/
theorem strategy_selection_thresholds :
    ∀ (analyze : Task → ℚ) (t : Task),
      ctxLookup (map_object analyze t).context "strategy" =
        some (.str (select_strategy (analyze t)).name) ∧
      (analyze t < 3/10 →
        select_strategy (analyze t) = .directExecution ∧
        (select_strategy (analyze t)).name = "Direct Execution") ∧
      (3/10 ≤ analyze t → analyze t < 7/10 →
        select_strategy (analyze t) = .multiApproachSynthesis ∧
        (select_strategy (analyze t)).name = "Multi-Approach Synthesis") ∧
      (7/10 ≤ analyze t →
        select_strategy (analyze t) = .autonomousEvolution ∧
        (select_strategy (analyze t)).name = "Autonomous Evolution") := by
  intro analyze t
  refine ⟨rfl, fun h1 => ?_, fun h2 h3 => ?_, fun h4 => ?_⟩
  · unfold select_strategy
    rw [if_pos h1]
    exact ⟨rfl, rfl⟩
  · unfold select_strategy
    rw [if_neg (not_lt.mpr h2), if_pos h3]
    exact ⟨rfl, rfl⟩
  · unfold select_strategy
    rw [if_neg (not_lt.mpr (le_trans (by norm_num) h4)),
        if_neg (not_lt.mpr h4)]
    exact ⟨rfl, rfl⟩

/-- Witness for C7 at the spec's boundary complexities 0.29, 0.30, 0.69
and 0.70. -/
theorem strategy_selection_thresholds_witness :
    (select_strategy (29/100)).name = "Direct Execution" ∧
    (select_strategy (30/100)).name = "Multi-Approach Synthesis" ∧
    (select_strategy (69/100)).name = "Multi-Approach Synthesis" ∧
    (select_strategy (70/100)).name = "Autonomous Evolution" :=
  ⟨((strategy_selection_thresholds (fun _ => 29/100) ⟨"t", [], []⟩).2.1
      (by norm_num)).2,
   ((strategy_selection_thresholds (fun _ => 30/100) ⟨"t", [], []⟩).2.2.1
      (by norm_num) (by norm_num)).2,
   ((strategy_selection_thresholds (fun _ => 69/100) ⟨"t", [], []⟩).2.2.1
      (by norm_num) (by norm_num)).2,
   ((strategy_selection_thresholds (fun _ => 70/100) ⟨"t", [], []⟩).2.2.2
      (by norm_num)).2⟩

/-- C8: `duplicate(w)` keeps the whole original observation, unmodified,
as its `current`; its history is `w` prepended to `w.history` (length
`len(w.history) + 1`, with `w` at index 0); and its context carries the
meta-observation markers `meta_observation = true` and
`history_depth = len(w.history)`. -/
theorem duplicate_nests_and_prepends :
    ∀ w : Observation,
      (duplicate w).current = ObsVal.obs w ∧
      (duplicate w).history = w :: w.history ∧
      (duplicate w).history.length = w.history.length + 1 ∧
      (duplicate w).history.get? 0 = some w ∧
      ctxLookup (duplicate w).context "meta_observation" = some (.bool true) ∧
      ctxLookup (duplicate w).context "history_depth" =
        some (.num (w.history.length : ℚ)) :=
  fun w => ⟨rfl, rfl, rfl, rfl, rfl, rfl⟩

/-- C9: `ContextStore.extract` on a store with no entries fails
immediately with the `ValueError` message instead of returning a value;
on a store whose focus index is in range it returns the focused entry's
content; and the Observation comonad's `extract` returns the `current`
field. -/
theorem extract_on_empty_fails :
    (∀ (α : Type) (k : Nat),
      ContextStore.extract { entries := [], focus_index := k : ContextStore α } =
        Except.error "Cannot extract from empty context") ∧
    (∀ (α : Type) (cs : ContextStore α)
      (h : cs.focus_index < cs.entries.length),
      cs.extract = Except.ok (cs.entries.get ⟨cs.focus_index, h⟩).content) ∧
    (∀ w : Observation, w.extract = w.current) := by
  refine ⟨fun α k => rfl, fun α cs h => ?_, fun w => rfl⟩
  obtain ⟨entries, k⟩ := cs
  cases entries with
  | nil => exact absurd h (Nat.not_lt_zero _)
  | cons e rest =>
    unfold ContextStore.extract
    rw [if_neg (by simp)]
    simp only [List.get?_eq_get h]

/-- Witness for C9: the empty store fails with the `ValueError` message,
and the one-entry store returns its focused content. -/
theorem extract_on_empty_fails_witness :
    ContextStore.extract cs_empty =
      Except.error "Cannot extract from empty context" ∧
    ContextStore.extract cs0 = Except.ok 7 :=
  ⟨extract_on_empty_fails.1 ℚ 0,
   (extract_on_empty_fails.2.1 ℚ cs0 (by decide)).trans rfl⟩

/-- C1 (code bug): the monad right identity `bind(m, unit) ≈ m` claimed
by the spec, by `monad.py`'s own docstrings and by
`test_monad_right_identity_law` fails on the code: evaluated exactly as
the repository's test does (`m = unit(prompt)`, then `bind(m, unit)`),
`verify_right_identity` returns `False`, because `bind` increments
`meta_level` (and `join` keeps the increment) while `m` stays at depth 0,
and `integrate_improvement` additionally rewrites the prompt so the
hashes differ. -/
theorem monad_right_identity_fails :
    verify_right_identity mock_client ma0 = Except.ok false := by
  with_unfolding_all rfl

/-- C2 (code bug): the monad left identity `bind(unit(p), f) ≈ f(p)`
claimed by the spec, by `monad.py`'s own docstrings and by
`test_monad_left_identity_law` fails on the code: evaluated exactly as
the repository's test does (with `f` wrapping an "Enhanced:" copy of the
prompt through `unit`), `verify_left_identity` returns `False`, because
the left side sits at `meta_level = 1` with a rewritten prompt while
`f(p)` sits at `meta_level = 0`. -/
theorem monad_left_identity_fails :
    verify_left_identity mock_client p0 enhance = Except.ok false := by
  with_unfolding_all rfl

/-- Counterexample to C5 as stated: a wrapped prompt with quality `0.5 <
0.80` and `meta_level = 0` whose history records a previous quality of
`0.9` triggers the quality-stagnation rule, so the surviving strategy is
`try_different_approach`, not the claimed `add_reasoning_steps` (the
boolean flags of all three matched rules do persist together). -/
theorem extract_improvement_claim_counterexample :
    mp_stagnant.quality.value < 4/5 ∧ mp_stagnant.meta_level = 0 ∧
    extract_improvement mp_stagnant =
      Except.ok { needs_clarity := true, add_meta_reflection := true,
                  quality_stagnant := true,
                  strategy := some "try_different_approach" } := by
  refine ⟨by norm_num [mp_stagnant], rfl, ?_⟩
  with_unfolding_all rfl

/-- C5 (amended): for every wrapped prompt with quality below `0.80`,
`meta_level = 0` and an empty history (so the quality-stagnation rule
cannot fire), `extract_improvement` returns `needs_clarity = true`,
`add_meta_reflection = true` and strategy `add_reasoning_steps`; and in
general, whenever `extract_improvement` returns, the boolean flag of
every matched rule persists and exactly the last matching rule's
strategy survives (stagnation over meta-reflection over structure). -/
theorem extract_improvement_last_rule_wins :
    ∀ mp : MonadPrompt,
      (mp.quality.value < 4/5 → mp.meta_level = 0 → mp.history = [] →
        extract_improvement mp =
          Except.ok { needs_clarity := true, add_meta_reflection := true,
                      quality_stagnant := false,
                      strategy := some "add_reasoning_steps" }) ∧
      (∀ i, extract_improvement mp = Except.ok i →
        i.needs_clarity = decide (mp.quality.value < 4/5) ∧
        i.add_meta_reflection = decide (mp.meta_level = 0) ∧
        i.strategy = (if i.quality_stagnant then some "try_different_approach"
          else if i.add_meta_reflection then some "add_reasoning_steps"
          else if i.needs_clarity then some "add_structure" else none)) := by
  intro mp
  constructor
  · intro h1 h2 h3
    unfold extract_improvement
    rw [h3]
    simp [h1, h2]
  · intro i hi
    unfold extract_improvement at hi
    dsimp only at hi
    split at hi
    · split_ifs at hi <;> (simp only [Except.ok.injEq] at hi; subst hi; simp_all)
    · split at hi
      · simp at hi
      · split_ifs at hi <;>
          (simp only [Except.ok.injEq] at hi; subst hi; simp_all)

/-- Witness for the amended C5 at a concrete input: quality `0.5`,
depth 0, empty history. -/
theorem extract_improvement_last_rule_wins_witness :
    extract_improvement mp_plain =
      Except.ok { needs_clarity := true, add_meta_reflection := true,
                  quality_stagnant := false,
                  strategy := some "add_reasoning_steps" } :=
  (extract_improvement_last_rule_wins mp_plain).1 (by norm_num [mp_plain])
    rfl rfl

/-- C6: `assess_quality` returns exactly the four components
correctness, clarity, completeness, efficiency (in that order), each in
`[0,1]`; its value is the fixed weighted combination
`0.4·correctness + 0.3·clarity + 0.2·completeness + 0.1·efficiency`;
and the value lies in `[0,1]`.  Determinism is inherent: the embedding
is a pure function of `(output, prompt)`. -/
theorem assess_quality_shape :
    ∀ (output : String) (prompt : Prompt),
      (assess_quality output prompt).components =
        [("correctness", assess_correctness output prompt),
         ("clarity", assess_clarity output),
         ("completeness", assess_completeness output prompt),
         ("efficiency", assess_efficiency output)] ∧
      (0 ≤ assess_correctness output prompt ∧
        assess_correctness output prompt ≤ 1) ∧
      (0 ≤ assess_clarity output ∧ assess_clarity output ≤ 1) ∧
      (0 ≤ assess_completeness output prompt ∧
        assess_completeness output prompt ≤ 1) ∧
      (0 ≤ assess_efficiency output ∧ assess_efficiency output ≤ 1) ∧
      (assess_quality output prompt).value =
        2/5 * assess_correctness output prompt + 3/10 * assess_clarity output +
        1/5 * assess_completeness output prompt +
        1/10 * assess_efficiency output ∧
      0 ≤ (assess_quality output prompt).value ∧
      (assess_quality output prompt).value ≤ 1 := by
  intro o p
  obtain ⟨c1, c2⟩ := correctness_bounds o p
  obtain ⟨l1, l2⟩ := clarity_bounds o
  obtain ⟨m1, m2⟩ := completeness_bounds o p
  obtain ⟨e1, e2⟩ := efficiency_bounds o
  have hv := assess_quality_value o p
  refine ⟨rfl, ⟨by linarith, c2⟩, ⟨by linarith, l2⟩, ⟨by linarith, m2⟩,
    ⟨by linarith, e2⟩, hv, ?_, ?_⟩
  · rw [hv]; linarith
  · rw [hv]; linarith

/-- C10: the quality heuristic has an implicit floor — each sub-assessor
starts from its base (correctness 0.5, clarity 0.5, completeness 0.6,
efficiency 0.7) and only adds non-negative increments before clamping,
so the weighted value is always at least
`0.4·0.5 + 0.3·0.5 + 0.2·0.6 + 0.1·0.7 = 0.54`; in particular quality 0
is unreachable through `assess_quality`. -/
theorem assess_quality_floor :
    ∀ (output : String) (prompt : Prompt),
      27/50 ≤ (assess_quality output prompt).value ∧
      0 < (assess_quality output prompt).value := by
  intro o p
  obtain ⟨c1, _⟩ := correctness_bounds o p
  obtain ⟨l1, _⟩ := clarity_bounds o
  obtain ⟨m1, _⟩ := completeness_bounds o p
  obtain ⟨e1, _⟩ := efficiency_bounds o
  have hv := assess_quality_value o p
  constructor <;> rw [hv] <;> linarith

end MPE
